import Mathlib

/-!
Verification development for the Ready4Uni repository.

The Python sources are shallowly embedded: pure business logic becomes Lean
functions over `String`, `List`, `ℚ` and `Option`/`Except`; numeric grades and
scores (Python floats holding small decimal values) are modelled as rationals;
Python dicts are modelled as association lists in insertion order; external
LLM calls are modelled as oracle parameters; wall-clock readings are modelled
as explicit rational parameters.
-/

/- ============================================================================
Python string primitives (`str.lower`, `str.strip`, the `in` substring test).
============================================================================ -/

/-- Lower-case one character the way Python `str.lower` does on the alphabet
used by this repository: ASCII letters plus the accented letters appearing in
the subject-name table. -/
def py_lower_char (c : Char) : Char :=
  if c = 'Á' then 'á' else if c = 'À' then 'à' else if c = 'Â' then 'â'
  else if c = 'Ã' then 'ã' else if c = 'É' then 'é' else if c = 'Ê' then 'ê'
  else if c = 'Í' then 'í' else if c = 'Ó' then 'ó' else if c = 'Ô' then 'ô'
  else if c = 'Õ' then 'õ' else if c = 'Ú' then 'ú' else if c = 'Ç' then 'ç'
  else c.toLower

/-- Python `str.lower`. -/
def py_lower (s : String) : String :=
  ⟨s.data.map py_lower_char⟩

/-- Whitespace characters removed by Python `str.strip`. -/
def is_py_space (c : Char) : Bool :=
  c = ' ' || c = '\t' || c = '\n' || c = '\r' || c = Char.ofNat 11 || c = Char.ofNat 12

/-- Python `str.strip`. -/
def py_strip (s : String) : String :=
  ⟨((s.data.dropWhile is_py_space).reverse.dropWhile is_py_space).reverse⟩

/-- Substring test on character lists: Python `needle in hay`. -/
def is_sub_chars (needle : List Char) : List Char → Bool
  | [] => needle.isEmpty
  | c :: t => needle.isPrefixOf (c :: t) || is_sub_chars needle t

/-- Python substring containment `needle in hay`. -/
def is_sub (needle hay : String) : Bool :=
  is_sub_chars needle.data hay.data

/-- An apostrophe character; used to assemble the fixed message strings of the
source that contain one. -/
def apos : String :=
  ⟨[Char.ofNat 39]⟩

/-- First value in an association list (a Python dict in insertion order)
whose key equals `k`. -/
def assoc_lookup {β : Type} (m : List (String × β)) (k : String) : Option β :=
  (m.find? (fun p => decide (p.1 = k))).map (·.2)

/-- Python truthiness of an optional string (`None` and the empty string are
falsy). -/
def opt_str_truthy : Option String → Bool
  | none => false
  | some s => !s.isEmpty

/- ============================================================================
src/utils/subject_mapper.py
============================================================================ -/

/-- Embedding of `SUBJECT_NAME_MAP`: the fixed Portuguese-to-English subject
name table. -/
def SUBJECT_NAME_MAP : List (String × String) :=
  [("matematica", "math"), ("matemática", "math"), ("matemática a", "math"),
   ("matematica a", "math"), ("mat a", "math"),
   ("fisica", "physics"), ("física", "physics"), ("fisica e quimica", "physics"),
   ("física e química", "physics"), ("física e química a", "physics"),
   ("fisica e quimica a", "physics"), ("fis quim a", "physics"),
   ("portugues", "portuguese"), ("português", "portuguese"), ("port", "portuguese"),
   ("ingles", "english"), ("inglês", "english"), ("ing", "english"),
   ("biologia", "biology"), ("geologia", "geology"), ("biologia e geologia", "biology"),
   ("bio geo", "biology"),
   ("historia", "history"), ("história", "history"), ("história a", "history"),
   ("historia a", "history"),
   ("geografia", "geography"), ("geografia a", "geography"),
   ("filosofia", "philosophy"), ("filos", "philosophy"),
   ("economia", "economics"), ("economia a", "economics"),
   ("quimica", "chemistry"), ("química", "chemistry")]

/-- Embedding of `normalize_subject_name`: lower-case and strip the input, look
it up in the fixed table, and return the original input when no mapping
exists. -/
def normalize_subject_name (subject : String) : String :=
  let subject_lower := py_strip (py_lower subject)
  (assoc_lookup SUBJECT_NAME_MAP subject_lower).getD subject

/-- Embedding of `find_matching_grade`: first entry whose normalized key equals
the normalized target, then an exact-key fallback, else `none`. -/
def find_matching_grade (grades : List (String × ℚ)) (target_subject : String) : Option ℚ :=
  let target_norm := normalize_subject_name (py_lower target_subject)
  match grades.find? (fun p => decide (normalize_subject_name (py_lower p.1) = target_norm)) with
  | some p => some p.2
  | none => (grades.find? (fun p => decide (p.1 = target_subject))).map (·.2)

/-- Claim C7: `normalize_subject_name` returns the canonical key exactly when
the lower-cased, trimmed input is in the fixed table and otherwise returns the
input as originally given; `find_matching_grade` returns the grade of the first
normalized match, falls back to an exact key lookup, and returns `none` when
neither matches; in particular it maps ({Matemática A ↦ 16}, Math) to 16 and
({}, Math) to none. -/
theorem spec_C7 :
    (∀ s c, assoc_lookup SUBJECT_NAME_MAP (py_strip (py_lower s)) = some c →
      normalize_subject_name s = c)
    ∧ (∀ s, assoc_lookup SUBJECT_NAME_MAP (py_strip (py_lower s)) = none →
      normalize_subject_name s = s)
    ∧ (∀ grades target p,
        grades.find? (fun q => decide (normalize_subject_name (py_lower q.1) =
          normalize_subject_name (py_lower target))) = some p →
        find_matching_grade grades target = some p.2)
    ∧ (∀ grades target,
        grades.find? (fun q => decide (normalize_subject_name (py_lower q.1) =
          normalize_subject_name (py_lower target))) = none →
        find_matching_grade grades target =
          (grades.find? (fun q => decide (q.1 = target))).map (·.2))
    ∧ normalize_subject_name "Advanced Calculus" = "Advanced Calculus"
    ∧ find_matching_grade [("Matemática A", 16)] "Math" = some 16
    ∧ find_matching_grade [] "Math" = none := by
  refine ⟨?_, ?_, ?_, ?_, by decide, by decide, by decide⟩
  · intro s c h
    simp only [normalize_subject_name, h, Option.getD_some]
  · intro s h
    simp only [normalize_subject_name, h, Option.getD_none]
  · intro grades target p h
    simp only [find_matching_grade, h]
  · intro grades target h1
    simp only [find_matching_grade, h1]

/-- Witness for claim C7: the hypotheses of each implication are discharged at
concrete inputs. -/
theorem spec_C7_witness :
    normalize_subject_name "Matemática A" = "math"
    ∧ normalize_subject_name "Sports" = "Sports"
    ∧ find_matching_grade [("Física", 15)] "Physics" = some 15
    ∧ find_matching_grade [("Arts", 12)] "Music" =
        ([("Arts", (12 : ℚ))].find? (fun q => decide (q.1 = "Music"))).map (·.2) := by
  refine ⟨?_, ?_, ?_, ?_⟩
  · exact spec_C7.1 "Matemática A" "math" (by decide)
  · exact spec_C7.2.1 "Sports" (by decide)
  · exact spec_C7.2.2.1 [("Física", 15)] "Physics" ("Física", 15) (by decide)
  · exact spec_C7.2.2.2.1 [("Arts", 12)] "Music" (by decide)

/- ============================================================================
src/config/settings.py (grading constants, major dataset accessors)
============================================================================ -/

/-- Minimum passing grade in the Portuguese system (`PASSING_GRADE`). -/
def PASSING_GRADE : ℚ := 10

/-- Maximum grade (`MAX_GRADE`). -/
def MAX_GRADE : ℚ := 20

/-- Embedding of `validate_grade`: a grade is valid iff it lies in [0, 20]. -/
def validate_grade (grade : ℚ) : Bool :=
  decide (0 ≤ grade) && decide (grade ≤ MAX_GRADE)

/-- A record of `data/majors.json` as validated by `load_majors`. The majors
dataset is loaded from disk at startup; the embedding passes the loaded list
explicitly to every function that reads the process-wide cache. -/
structure Major where
  id : String
  name : String
  name_pt : Option String := none
  description : String := ""
  requirements : List (String × ℚ) := []
  keywords : List String := []
  career_paths : List String := []
deriving DecidableEq

/-- Embedding of `get_major_by_name`: fuzzy mode returns the first major whose
lower-cased name (or Portuguese name) contains the lower-cased query; exact
mode compares lower-cased names for equality. -/
def get_major_by_name (majors : List Major) (name : String) (fuzzy : Bool) : Option Major :=
  let name_lower := py_lower name
  if fuzzy then
    majors.find? (fun m =>
      is_sub name_lower (py_lower m.name) ||
        (match m.name_pt with
         | some pt => is_sub name_lower (py_lower pt)
         | none => false))
  else
    majors.find? (fun m => decide (py_lower m.name = name_lower))

/- ============================================================================
Stable descending sort: the embedding of Python `sorted(..., reverse=True)`
and `list.sort(..., reverse=True)`, which are stable.
============================================================================ -/

/-- Stable descending sort by a rational key, as performed by Python
`sorted(..., key=..., reverse=True)`. -/
def py_sort_desc {α : Type} (key : α → ℚ) (l : List α) : List α :=
  l.insertionSort (fun a b => key b ≤ key a)

/-- Sorting does not change the multiset of elements. -/
theorem py_sort_desc_perm {α : Type} (key : α → ℚ) (l : List α) :
    (py_sort_desc key l).Perm l :=
  List.perm_insertionSort _ l

/-- The sorted list is descending in the key. -/
theorem py_sort_desc_sorted {α : Type} (key : α → ℚ) (l : List α) :
    (py_sort_desc key l).Pairwise (fun a b => key b ≤ key a) := by
  have ht : IsTotal α (fun a b => key b ≤ key a) := ⟨fun a b => le_total (key b) (key a)⟩
  have htr : IsTrans α (fun a b => key b ≤ key a) :=
    ⟨fun _ _ _ hab hbc => le_trans hbc hab⟩
  exact @List.sorted_insertionSort α _ _ ht htr l

/-- Stability: elements sharing a key keep their original relative order. -/
theorem py_sort_desc_filter_key {α : Type} (key : α → ℚ) (l : List α) (q : ℚ) :
    (py_sort_desc key l).filter (fun a => decide (key a = q)) =
      l.filter (fun a => decide (key a = q)) := by
  set p : α → Bool := fun a => decide (key a = q) with hp
  have hmemkey : ∀ x ∈ l.filter p, key x = q := by
    intro x hx
    have h1 := List.of_mem_filter hx
    rw [hp] at h1
    exact of_decide_eq_true h1
  have hpair : (l.filter p).Pairwise (fun a b => key b ≤ key a) :=
    List.pairwise_of_forall_mem_list (fun a ha b hb => by
      rw [hmemkey a ha, hmemkey b hb])
  have hsub : (l.filter p).Sublist (py_sort_desc key l) :=
    List.sublist_insertionSort hpair (List.filter_sublist l)
  have hself : (l.filter p).filter p = l.filter p :=
    List.filter_eq_self.mpr (fun a ha => List.of_mem_filter ha)
  have hsub2 : (l.filter p).Sublist ((py_sort_desc key l).filter p) := by
    have := hsub.filter p
    rwa [hself] at this
  have hperm : ((py_sort_desc key l).filter p).Perm (l.filter p) :=
    (py_sort_desc_perm key l).filter p
  exact (hsub2.eq_of_length hperm.length_eq.symm).symm

/- ============================================================================
src/services/transcript_service.py
============================================================================ -/

/-- Embedding of the `GradeGap` dataclass. -/
structure GradeGap where
  subject : String
  student_grade : ℚ
  required_grade : ℚ
  gap : ℚ
  severity : String
  priority : ℕ := 2
deriving DecidableEq

/-- Embedding of the `GradeGap.is_gap` property. -/
def GradeGap.is_gap (g : GradeGap) : Bool :=
  decide (0 < g.gap)

/-- Embedding of the `TranscriptAnalysis` dataclass. -/
structure TranscriptAnalysis where
  grades : List (String × ℚ)
  gpa : Option ℚ := none
  strengths : List String := []
  weaknesses : List String := []
  passing_all : Bool := true
  overall_quality : String := "adequate"
deriving DecidableEq

/-- The severity cascade of `compare_grades_to_requirements` as a function of
the gap value. -/
def severity_of (gap_value : ℚ) : String :=
  if gap_value ≤ 0 then "meets"
  else if gap_value ≤ 2 then "close"
  else "significant"

/-- The priority cascade of `compare_grades_to_requirements` as a function of
the gap value. -/
def priority_of (gap_value : ℚ) : ℕ :=
  if 4 < gap_value then 1
  else if 2 < gap_value then 2
  else if 0 < gap_value then 3
  else 4

/-- Entries retained by the defensive None-filter at the top of
`analyze_transcript`. -/
def kept_grades (grades : List (String × Option ℚ)) : List (String × ℚ) :=
  grades.filterMap (fun p => p.2.map (fun v => (p.1, v)))

/-- Embedding of `TranscriptService.analyze_transcript`. Raised `ValueError`s
are modelled as `Except.error`. -/
def analyze_transcript (grades : List (String × Option ℚ)) :
    Except String TranscriptAnalysis :=
  if grades.isEmpty then .error "No grades provided for analysis"
  else
    let kept := kept_grades grades
    if kept.isEmpty then .error "All grades are None - no valid data"
    else
      match kept.find? (fun p => !validate_grade p.2) with
      | some p => .error ("Invalid grade for " ++ p.1 ++ " (must be 0-20)")
      | none =>
        let gpa := (kept.map (·.2)).sum / (kept.length : ℚ)
        let sorted_subjects := py_sort_desc (fun p => p.2) kept
        let strengths :=
          ((sorted_subjects.take 3).filter (fun p => decide (14 ≤ p.2))).map (·.1)
        let weaknesses :=
          ((sorted_subjects.drop (sorted_subjects.length - 3)).filter
            (fun p => decide (p.2 < 14))).map (·.1)
        let passing_all := kept.all (fun p => decide (PASSING_GRADE ≤ p.2))
        let overall_quality :=
          if 17 ≤ gpa then "excellent"
          else if 15 ≤ gpa then "good"
          else if 12 ≤ gpa then "adequate"
          else "needs_improvement"
        .ok { grades := kept, gpa := some gpa, strengths := strengths,
              weaknesses := weaknesses, passing_all := passing_all,
              overall_quality := overall_quality }

/-- One iteration of the requirements loop of
`compare_grades_to_requirements`: resolve the student grade through the
subject mapper, substituting `PASSING_GRADE` when absent, and build the
`GradeGap` record. -/
def gap_for_requirement (student_grades : List (String × ℚ)) (p : String × ℚ) : GradeGap :=
  let student_grade := (find_matching_grade student_grades p.1).getD PASSING_GRADE
  let gap_value := p.2 - student_grade
  { subject := p.1, student_grade := student_grade, required_grade := p.2,
    gap := gap_value, severity := severity_of gap_value,
    priority := priority_of gap_value }

/-- The overall-readiness cascade at the end of
`compare_grades_to_requirements`. -/
def determine_readiness (gaps : List GradeGap) : String :=
  let actual_gaps := gaps.filter (fun g => g.is_gap)
  if actual_gaps.isEmpty then "ready"
  else if actual_gaps.all (fun g => decide (g.severity = "close")) then "mostly_ready"
  else if actual_gaps.any (fun g => decide (g.severity = "significant")) then
    if 2 ≤ (actual_gaps.filter (fun g => decide (g.severity = "significant"))).length then
      "significant_gaps"
    else "needs_improvement"
  else "needs_improvement"

/-- Embedding of `TranscriptService.compare_grades_to_requirements`. -/
def compare_grades_to_requirements (majors : List Major)
    (student_grades : List (String × ℚ)) (major_name : String) :
    Except String (List GradeGap × String) :=
  match get_major_by_name majors major_name true with
  | none => .error ("Major " ++ apos ++ major_name ++ apos ++ " not found in database")
  | some major =>
    if major.requirements.isEmpty then
      .error ("No requirements data for major " ++ apos ++ major_name ++ apos)
    else
      let gaps := major.requirements.map (gap_for_requirement student_grades)
      .ok (gaps, determine_readiness gaps)

/-- Characterization of the severity cascade. -/
theorem severity_of_cases (q : ℚ) :
    (severity_of q = "meets" ↔ q ≤ 0)
    ∧ (severity_of q = "close" ↔ 0 < q ∧ q ≤ 2)
    ∧ (severity_of q = "significant" ↔ 2 < q) := by
  unfold severity_of
  split_ifs with h1 h2
  · refine ⟨⟨fun _ => h1, fun _ => rfl⟩, ⟨fun h => absurd h (by decide), ?_⟩,
      ⟨fun h => absurd h (by decide), fun h => absurd h1 (by linarith)⟩⟩
    rintro ⟨hq, -⟩
    exact absurd h1 (by linarith)
  · push_neg at h1
    refine ⟨⟨fun h => absurd h (by decide), fun h => absurd h1 (by linarith)⟩,
      ⟨fun _ => ⟨h1, h2⟩, fun _ => rfl⟩,
      ⟨fun h => absurd h (by decide), fun h => absurd h2 (by linarith)⟩⟩
  · push_neg at h1 h2
    refine ⟨⟨fun h => absurd h (by decide), fun h => absurd h2 (by linarith)⟩,
      ⟨fun h => absurd h (by decide), ?_⟩, ⟨fun _ => h2, fun _ => rfl⟩⟩
    rintro ⟨-, hq⟩
    exact absurd h2 (by linarith)

/-- Characterization of the priority cascade. -/
theorem priority_of_cases (q : ℚ) :
    (priority_of q = 1 ↔ 4 < q)
    ∧ (priority_of q = 2 ↔ 2 < q ∧ q ≤ 4)
    ∧ (priority_of q = 3 ↔ 0 < q ∧ q ≤ 2)
    ∧ (priority_of q = 4 ↔ q ≤ 0) := by
  unfold priority_of
  split_ifs with h1 h2 h3
  · exact ⟨⟨fun _ => h1, fun _ => rfl⟩,
      ⟨fun h => absurd h (by decide), fun h => absurd h.2 (by linarith)⟩,
      ⟨fun h => absurd h (by decide), fun h => absurd h.2 (by linarith)⟩,
      ⟨fun h => absurd h (by decide), fun h => absurd h (by linarith)⟩⟩
  · push_neg at h1
    exact ⟨⟨fun h => absurd h (by decide), fun h => absurd h1 (by linarith)⟩,
      ⟨fun _ => ⟨h2, h1⟩, fun _ => rfl⟩,
      ⟨fun h => absurd h (by decide), fun h => absurd h.2 (by linarith)⟩,
      ⟨fun h => absurd h (by decide), fun h => absurd h (by linarith)⟩⟩
  · push_neg at h1 h2
    exact ⟨⟨fun h => absurd h (by decide), fun h => absurd h1 (by linarith)⟩,
      ⟨fun h => absurd h (by decide), fun h => absurd h.1 (by linarith)⟩,
      ⟨fun _ => ⟨h3, h2⟩, fun _ => rfl⟩,
      ⟨fun h => absurd h (by decide), fun h => absurd h (by linarith)⟩⟩
  · push_neg at h1 h2 h3
    exact ⟨⟨fun h => absurd h (by decide), fun h => absurd h1 (by linarith)⟩,
      ⟨fun h => absurd h (by decide), fun h => absurd h.1 (by linarith)⟩,
      ⟨fun h => absurd h (by decide), fun h => absurd h.1 (by linarith)⟩,
      ⟨fun _ => h3, fun _ => rfl⟩⟩

/-- The priority bands are antitone in the gap: a larger gap never gets a
larger (less urgent) priority number. -/
theorem priority_of_antitone {q1 q2 : ℚ} (h : q1 ≤ q2) :
    priority_of q2 ≤ priority_of q1 := by
  unfold priority_of
  split_ifs <;> first | omega | (exfalso; linarith)

/-- Inversion of a successful `compare_grades_to_requirements` call. -/
theorem compare_ok {majors : List Major} {student_grades : List (String × ℚ)}
    {major_name : String} {gaps : List GradeGap} {readiness : String}
    (h : compare_grades_to_requirements majors student_grades major_name =
      .ok (gaps, readiness)) :
    ∃ major, get_major_by_name majors major_name true = some major
      ∧ gaps = major.requirements.map (gap_for_requirement student_grades)
      ∧ readiness = determine_readiness gaps := by
  unfold compare_grades_to_requirements at h
  split at h
  · exact Except.noConfusion h
  · rename_i major hg
    split at h
    · exact Except.noConfusion h
    · simp only [Except.ok.injEq, Prod.mk.injEq] at h
      refine ⟨major, hg, h.1.symm, ?_⟩
      rw [← h.1]
      exact h.2.symm

/-- Claim C2: every `GradeGap` produced by `compare_grades_to_requirements`
satisfies gap = required − student, the severity bands (meets iff gap ≤ 0,
close iff 0 < gap ≤ 2, significant iff gap > 2), the priority bands (1 iff
gap > 4, 2 iff 2 < gap ≤ 4, 3 iff 0 < gap ≤ 2, 4 iff gap ≤ 0), and priority is
antitone in the gap across the records of one result. -/
theorem spec_C2 (majors : List Major) (student_grades : List (String × ℚ))
    (major_name : String) (gaps : List GradeGap) (readiness : String)
    (h : compare_grades_to_requirements majors student_grades major_name =
      .ok (gaps, readiness)) :
    ∀ g ∈ gaps,
      g.gap = g.required_grade - g.student_grade
      ∧ (g.severity = "meets" ↔ g.gap ≤ 0)
      ∧ (g.severity = "close" ↔ 0 < g.gap ∧ g.gap ≤ 2)
      ∧ (g.severity = "significant" ↔ 2 < g.gap)
      ∧ (g.priority = 1 ↔ 4 < g.gap)
      ∧ (g.priority = 2 ↔ 2 < g.gap ∧ g.gap ≤ 4)
      ∧ (g.priority = 3 ↔ 0 < g.gap ∧ g.gap ≤ 2)
      ∧ (g.priority = 4 ↔ g.gap ≤ 0)
      ∧ ∀ g2 ∈ gaps, g.gap ≤ g2.gap → g2.priority ≤ g.priority := by
  obtain ⟨major, -, hgaps, -⟩ := compare_ok h
  subst hgaps
  intro g hg
  obtain ⟨p, -, rfl⟩ := List.mem_map.mp hg
  refine ⟨rfl, (severity_of_cases _).1, (severity_of_cases _).2.1,
    (severity_of_cases _).2.2, (priority_of_cases _).1, (priority_of_cases _).2.1,
    (priority_of_cases _).2.2.1, (priority_of_cases _).2.2.2, ?_⟩
  intro g2 hg2 hle
  obtain ⟨p2, -, rfl⟩ := List.mem_map.mp hg2
  exact priority_of_antitone hle

deriving instance DecidableEq for Except

/-- A small concrete majors dataset used to instantiate the gap-analysis
theorems. -/
def demo_major : Major :=
  { id := "computer_science", name := "Computer Science",
    description := "study of computation and programming",
    requirements := [("Math", 16), ("Physics", 14), ("English", 12)],
    keywords := ["programming", "math", "technology"],
    career_paths := ["software engineer"] }

/-- Concrete student grades used to instantiate the gap-analysis theorems. -/
def demo_grades : List (String × ℚ) :=
  [("Matemática A", 15), ("Physics", 15)]

/-- Expected gap record for Math in the demo comparison. -/
def demo_gap_math : GradeGap :=
  { subject := "Math", student_grade := 15, required_grade := 16, gap := 1,
    severity := "close", priority := 3 }

/-- Expected gap record for Physics in the demo comparison. -/
def demo_gap_physics : GradeGap :=
  { subject := "Physics", student_grade := 15, required_grade := 14, gap := -1,
    severity := "meets", priority := 4 }

/-- Expected gap record for English in the demo comparison (missing from the
transcript, so the passing grade is substituted). -/
def demo_gap_english : GradeGap :=
  { subject := "English", student_grade := 10, required_grade := 12, gap := 2,
    severity := "close", priority := 3 }

/-- Witness for claim C2 at a concrete comparison. -/
theorem spec_C2_witness :
    demo_gap_math.gap = demo_gap_math.required_grade - demo_gap_math.student_grade
    ∧ (demo_gap_math.severity = "close" ↔ 0 < demo_gap_math.gap ∧ demo_gap_math.gap ≤ 2)
    ∧ (demo_gap_math.priority = 3 ↔ 0 < demo_gap_math.gap ∧ demo_gap_math.gap ≤ 2) := by
  have h := spec_C2 [demo_major] demo_grades "Computer Science"
    [demo_gap_math, demo_gap_physics, demo_gap_english] "mostly_ready"
    (by with_unfolding_all decide) demo_gap_math (by decide)
  exact ⟨h.1, h.2.2.1, h.2.2.2.2.2.2.1⟩

/-- The single-requirement major of the reproducible example in claim C3. -/
def math_major : Major :=
  { id := "mathematics", name := "Mathematics",
    requirements := [("Math", 16)] }

/-- Claim C3: when a required subject has no matching entry in the student
grades, `compare_grades_to_requirements` substitutes the passing-grade
constant 10; in particular, for a major requiring only Math at 16 and an empty
grade mapping the single gap record is (student 10, gap 6, significant,
priority 1). -/
theorem spec_C3 :
    (∀ (majors : List Major) (student_grades : List (String × ℚ)) (major_name : String)
      (gaps : List GradeGap) (readiness : String),
      compare_grades_to_requirements majors student_grades major_name =
        .ok (gaps, readiness) →
      ∀ g ∈ gaps, find_matching_grade student_grades g.subject = none →
        g.student_grade = PASSING_GRADE)
    ∧ compare_grades_to_requirements [math_major] [] "Mathematics" =
        .ok ([{ subject := "Math", student_grade := 10, required_grade := 16,
                gap := 6, severity := "significant", priority := 1 }],
             "needs_improvement") := by
  refine ⟨?_, by with_unfolding_all decide⟩
  intro majors student_grades major_name gaps readiness h g hg hfind
  obtain ⟨major, -, rfl, -⟩ := compare_ok h
  obtain ⟨p, -, rfl⟩ := List.mem_map.mp hg
  simp only [gap_for_requirement] at hfind ⊢
  rw [hfind]
  rfl

/-- Witness for claim C3: the general part applied at the reproducible
example. -/
theorem spec_C3_witness :
    find_matching_grade [] "Math" = none
    ∧ ({ subject := "Math", student_grade := 10, required_grade := 16, gap := 6,
         severity := "significant", priority := 1 } : GradeGap).student_grade =
        PASSING_GRADE := by
  refine ⟨by decide, ?_⟩
  exact spec_C3.1 [math_major] [] "Mathematics"
    [{ subject := "Math", student_grade := 10, required_grade := 16, gap := 6,
       severity := "significant", priority := 1 }] "needs_improvement"
    (by with_unfolding_all decide)
    { subject := "Math", student_grade := 10, required_grade := 16, gap := 6,
      severity := "significant", priority := 1 }
    (by decide) (by decide)

/-- A gap record carries the severity of its own gap value. -/
theorem gap_for_requirement_coherent (student_grades : List (String × ℚ))
    (p : String × ℚ) :
    (gap_for_requirement student_grades p).severity =
      severity_of (gap_for_requirement student_grades p).gap := rfl

/-- Claim C4: the readiness label of `compare_grades_to_requirements` is
"ready" iff there is no positive gap; "mostly_ready" iff there is at least one
gapped subject and every gapped subject is "close"; "significant_gaps" iff at
least two gapped subjects are "significant"; and "needs_improvement" in every
other gapped case. -/
theorem spec_C4 (majors : List Major) (student_grades : List (String × ℚ))
    (major_name : String) (gaps : List GradeGap) (readiness : String)
    (h : compare_grades_to_requirements majors student_grades major_name =
      .ok (gaps, readiness)) :
    ((readiness = "ready") ↔ gaps.filter (fun g => g.is_gap) = [])
    ∧ ((readiness = "mostly_ready") ↔ gaps.filter (fun g => g.is_gap) ≠ []
        ∧ ∀ g ∈ gaps.filter (fun g => g.is_gap), g.severity = "close")
    ∧ ((readiness = "significant_gaps") ↔
        2 ≤ ((gaps.filter (fun g => g.is_gap)).filter
          (fun g => decide (g.severity = "significant"))).length)
    ∧ ((readiness = "needs_improvement") ↔ gaps.filter (fun g => g.is_gap) ≠ []
        ∧ (∃ g ∈ gaps.filter (fun g => g.is_gap), ¬g.severity = "close")
        ∧ ((gaps.filter (fun g => g.is_gap)).filter
          (fun g => decide (g.severity = "significant"))).length < 2) := by
  obtain ⟨major, -, hmap, hr⟩ := compare_ok h
  have hco : ∀ g ∈ gaps, g.is_gap = true → ¬g.severity = "close" →
      g.severity = "significant" := by
    intro g hgmem hgap hnc
    rw [hmap] at hgmem
    obtain ⟨p, -, rfl⟩ := List.mem_map.mp hgmem
    rw [gap_for_requirement_coherent] at hnc ⊢
    have hpos : 0 < (gap_for_requirement student_grades p).gap :=
      of_decide_eq_true hgap
    have h2 : ¬(gap_for_requirement student_grades p).gap ≤ 2 := fun hle =>
      hnc ((severity_of_cases _).2.1.mpr ⟨hpos, hle⟩)
    exact (severity_of_cases _).2.2.mpr (not_le.mp h2)
  subst hr
  simp only [determine_readiness]
  by_cases c1 : (gaps.filter (fun g => g.is_gap)).isEmpty = true
  · rw [if_pos c1]
    have hA : gaps.filter (fun g => g.is_gap) = [] := List.isEmpty_iff.mp c1
    refine ⟨iff_of_true rfl hA, iff_of_false (by decide) (fun hc => hc.1 hA),
      iff_of_false (by decide) ?_, iff_of_false (by decide) (fun hc => hc.1 hA)⟩
    rw [hA]
    simp
  · rw [if_neg c1]
    have hAne : gaps.filter (fun g => g.is_gap) ≠ [] := by
      intro he
      rw [he] at c1
      exact c1 rfl
    by_cases c2 : (gaps.filter (fun g => g.is_gap)).all
        (fun g => decide (g.severity = "close")) = true
    · rw [if_pos c2]
      have hall : ∀ g ∈ gaps.filter (fun g => g.is_gap), g.severity = "close" :=
        fun g hg => of_decide_eq_true (List.all_eq_true.mp c2 g hg)
      have hsig : (gaps.filter (fun g => g.is_gap)).filter
          (fun g => decide (g.severity = "significant")) = [] := by
        rw [List.filter_eq_nil_iff]
        intro g hg
        rw [hall g hg]
        decide
      refine ⟨iff_of_false (by decide) (fun hA => hAne hA),
        iff_of_true rfl ⟨hAne, hall⟩,
        iff_of_false (by decide) ?_,
        iff_of_false (by decide) ?_⟩
      · rw [hsig]
        simp
      · rintro ⟨-, ⟨g, hgA, hgnc⟩, -⟩
        exact hgnc (hall g hgA)
    · have hex : ∃ g ∈ gaps.filter (fun g => g.is_gap), ¬g.severity = "close" := by
        by_contra hno
        push_neg at hno
        apply c2
        rw [List.all_eq_true]
        exact fun g hg => decide_eq_true (hno g hg)
      obtain ⟨g0, hg0A, hg0nc⟩ := hex
      have hg0sig : g0.severity = "significant" :=
        hco g0 (List.mem_of_mem_filter hg0A) (List.of_mem_filter hg0A) hg0nc
      have c3 : (gaps.filter (fun g => g.is_gap)).any
          (fun g => decide (g.severity = "significant")) = true := by
        rw [List.any_eq_true]
        exact ⟨g0, hg0A, decide_eq_true hg0sig⟩
      rw [if_neg c2, if_pos c3]
      by_cases c4 : 2 ≤ ((gaps.filter (fun g => g.is_gap)).filter
          (fun g => decide (g.severity = "significant"))).length
      · rw [if_pos c4]
        refine ⟨iff_of_false (by decide) (fun hA => hAne hA),
          iff_of_false (by decide) (fun hc => hg0nc (hc.2 g0 hg0A)),
          iff_of_true rfl c4,
          iff_of_false (by decide) (fun hc => absurd c4 (not_le.mpr hc.2.2))⟩
      · rw [if_neg c4]
        refine ⟨iff_of_false (by decide) (fun hA => hAne hA),
          iff_of_false (by decide) (fun hc => hg0nc (hc.2 g0 hg0A)),
          iff_of_false (by decide) c4,
          iff_of_true rfl ⟨hAne, ⟨g0, hg0A, hg0nc⟩, not_le.mp c4⟩⟩

/-- Witness for claim C4: the "mostly_ready" characterization at the concrete
demo comparison, whose two gapped subjects are both "close". -/
theorem spec_C4_witness :
    ("mostly_ready" : String) = "mostly_ready" ↔
      [demo_gap_math, demo_gap_physics, demo_gap_english].filter (fun g => g.is_gap) ≠ []
      ∧ ∀ g ∈ [demo_gap_math, demo_gap_physics, demo_gap_english].filter
          (fun g => g.is_gap), g.severity = "close" :=
  (spec_C4 [demo_major] demo_grades "Computer Science"
    [demo_gap_math, demo_gap_physics, demo_gap_english] "mostly_ready"
    (by with_unfolding_all decide)).2.1

/-- Claim C5: `analyze_transcript` fails iff the grade mapping is empty after
discarding null entries or some retained grade lies outside [0, 20]; otherwise
gpa is the arithmetic mean, strengths are the top-3-by-grade subjects with
grade ≥ 14, weaknesses the bottom-3 subjects with grade < 14, passing_all
holds iff every grade is ≥ 10, and overall_quality buckets the gpa at the
inclusive thresholds 17/15/12. -/
theorem spec_C5 (grades : List (String × Option ℚ)) :
    ((∃ e, analyze_transcript grades = .error e) ↔
      kept_grades grades = [] ∨ ∃ p ∈ kept_grades grades, ¬(0 ≤ p.2 ∧ p.2 ≤ 20))
    ∧ ∀ a, analyze_transcript grades = .ok a →
        a.gpa = some (((kept_grades grades).map (·.2)).sum /
          ((kept_grades grades).length : ℚ))
        ∧ a.strengths = (((py_sort_desc (fun p => p.2) (kept_grades grades)).take 3).filter
            (fun p => decide (14 ≤ p.2))).map (·.1)
        ∧ a.weaknesses = (((py_sort_desc (fun p => p.2) (kept_grades grades)).drop
            ((py_sort_desc (fun p => p.2) (kept_grades grades)).length - 3)).filter
            (fun p => decide (p.2 < 14))).map (·.1)
        ∧ (a.passing_all = true ↔ ∀ p ∈ kept_grades grades, PASSING_GRADE ≤ p.2)
        ∧ ∀ gpa_val, a.gpa = some gpa_val →
            (a.overall_quality = "excellent" ↔ 17 ≤ gpa_val)
            ∧ (a.overall_quality = "good" ↔ 15 ≤ gpa_val ∧ gpa_val < 17)
            ∧ (a.overall_quality = "adequate" ↔ 12 ≤ gpa_val ∧ gpa_val < 15)
            ∧ (a.overall_quality = "needs_improvement" ↔ gpa_val < 12) := by
  simp only [analyze_transcript]
  by_cases h0 : grades.isEmpty = true
  · rw [if_pos h0]
    have hkept : kept_grades grades = [] := by
      rw [List.isEmpty_iff.mp h0]
      rfl
    exact ⟨iff_of_true ⟨_, rfl⟩ (Or.inl hkept), fun a ha => Except.noConfusion ha⟩
  · rw [if_neg h0]
    by_cases h1 : (kept_grades grades).isEmpty = true
    · rw [if_pos h1]
      exact ⟨iff_of_true ⟨_, rfl⟩ (Or.inl (List.isEmpty_iff.mp h1)),
        fun a ha => Except.noConfusion ha⟩
    · rw [if_neg h1]
      cases hf : (kept_grades grades).find? (fun p => !validate_grade p.2) with
      | some p =>
        simp only [hf]
        have hmem := List.mem_of_find?_eq_some hf
        have hbad := List.find?_some hf
        have hinv : ¬(0 ≤ p.2 ∧ p.2 ≤ 20) := by
          rintro ⟨ha, hb⟩
          simp [validate_grade, MAX_GRADE, ha, hb] at hbad
        exact ⟨iff_of_true ⟨_, rfl⟩ (Or.inr ⟨p, hmem, hinv⟩),
          fun a ha => Except.noConfusion ha⟩
      | none =>
        simp only [hf]
        constructor
        · refine iff_of_false (fun ⟨e, he⟩ => Except.noConfusion he) ?_
          rintro (hk | ⟨p, hp, hinv⟩)
          · rw [hk] at h1
            exact h1 rfl
          · have hv := List.find?_eq_none.mp hf p hp
            simp [validate_grade, MAX_GRADE] at hv
            exact hinv ⟨hv.1, hv.2⟩
        · intro a ha
          have ha' := Except.ok.inj ha
          subst ha'
          dsimp only
          refine ⟨rfl, rfl, rfl, ?_, ?_⟩
          · constructor
            · intro hall p hp
              exact of_decide_eq_true (List.all_eq_true.mp hall p hp)
            · intro hall
              rw [List.all_eq_true]
              exact fun p hp => decide_eq_true (hall p hp)
          · intro gpa_val hgpa
            have hg := Option.some.inj hgpa
            subst hg
            split_ifs with q1 q2 q3
            · exact ⟨iff_of_true rfl q1,
                iff_of_false (by decide) (fun hc => absurd q1 (not_le.mpr hc.2)),
                iff_of_false (by decide) (fun hc => absurd hc.2 (by linarith)),
                iff_of_false (by decide) (fun hc => absurd hc (by linarith))⟩
            · push_neg at q1
              exact ⟨iff_of_false (by decide) (fun hc => absurd q1 (not_lt.mpr hc)),
                iff_of_true rfl ⟨q2, q1⟩,
                iff_of_false (by decide) (fun hc => absurd hc.2 (by linarith)),
                iff_of_false (by decide) (fun hc => absurd hc (by linarith))⟩
            · push_neg at q1 q2
              exact ⟨iff_of_false (by decide) (fun hc => absurd q1 (not_lt.mpr hc)),
                iff_of_false (by decide) (fun hc => absurd hc.1 (by linarith)),
                iff_of_true rfl ⟨q3, q2⟩,
                iff_of_false (by decide) (fun hc => absurd hc (by linarith))⟩
            · push_neg at q1 q2 q3
              exact ⟨iff_of_false (by decide) (fun hc => absurd q1 (not_lt.mpr hc)),
                iff_of_false (by decide) (fun hc => absurd hc.1 (by linarith)),
                iff_of_false (by decide) (fun hc => absurd hc.1 (by linarith)),
                iff_of_true rfl q3⟩

/-- Concrete transcript input for the C5 witness: one null entry is discarded,
the remaining grades are 16 and 12. -/
def c5_demo : List (String × Option ℚ) :=
  [("Math", some 16), ("Biology", none), ("Port", some 12)]

/-- Expected analysis of `c5_demo`. -/
def c5_analysis : TranscriptAnalysis :=
  { grades := [("Math", 16), ("Port", 12)], gpa := some 14,
    strengths := ["Math"], weaknesses := ["Port"],
    passing_all := true, overall_quality := "adequate" }

/-- Witness for claim C5 at the concrete transcript `c5_demo`. -/
theorem spec_C5_witness :
    c5_analysis.gpa = some (((kept_grades c5_demo).map (·.2)).sum /
      ((kept_grades c5_demo).length : ℚ))
    ∧ (c5_analysis.passing_all = true ↔ ∀ p ∈ kept_grades c5_demo, PASSING_GRADE ≤ p.2)
    ∧ (c5_analysis.overall_quality = "adequate" ↔ 12 ≤ (14 : ℚ) ∧ (14 : ℚ) < 15) := by
  have h := (spec_C5 c5_demo).2 c5_analysis (by with_unfolding_all decide)
  exact ⟨h.1, h.2.2.2.1, (h.2.2.2.2 14 rfl).2.2.1⟩

/- ============================================================================
src/services/major_service.py
============================================================================ -/

/-- A loosely-typed tool argument as delivered by the LLM: the `top_n`
parameter is annotated `int` but may arrive as a string or be absent. -/
inductive PyVal where
  | vint (n : ℤ)
  | vstr (s : String)
  | vnone
deriving DecidableEq

/-- Python truthiness of a loosely-typed value. -/
def py_truthy : PyVal → Bool
  | .vint n => decide (n ≠ 0)
  | .vstr s => !s.isEmpty
  | .vnone => false

/-- Fold decimal digits into a number; fails on any non-digit character. -/
def digits_to_nat (acc : ℕ) : List Char → Option ℕ
  | [] => some acc
  | c :: t => if c.isDigit then digits_to_nat (acc * 10 + (c.toNat - 48)) t else none

/-- Python `int(s)` on a string: strips whitespace, accepts an optional sign
followed by at least one digit, and raises `ValueError` otherwise. -/
def py_int_of_string (s : String) : Except String ℤ :=
  let bad : Except String ℤ :=
    .error ("invalid literal for int() with base 10: " ++ apos ++ s ++ apos)
  let core : List Char → Except String ℤ := fun ds =>
    if ds.isEmpty then bad
    else match digits_to_nat 0 ds with
      | some n => .ok (n : ℤ)
      | none => bad
  match (py_strip s).data with
  | '-' :: rest => (core rest).map (fun n => -n)
  | '+' :: rest => core rest
  | t => core t

/-- Python `int(v)` on a loosely-typed value. -/
def py_int : PyVal → Except String ℤ
  | .vint n => .ok n
  | .vstr s => py_int_of_string s
  | .vnone => .error "int() argument must be a string or a number, not NoneType"

/-- Python slice `l[:n]`, including the negative-index case that drops
elements from the end. -/
def py_slice {α : Type} (n : ℤ) (l : List α) : List α :=
  if 0 ≤ n then l.take n.toNat else l.take ((l.length : ℤ) + n).toNat

/-- Embedding of the `MajorMatch` dataclass. Set-valued fields are modelled as
first-occurrence-ordered duplicate-free lists. -/
structure MajorMatch where
  major : Major
  score : ℚ
  reasons : List String
  matching_keywords : List String
deriving DecidableEq

/-- The favourite-subject expansion of `match_interests_to_majors`: each
subject is kept as given and additionally in normalized form when the
normalizer changes it. -/
def mapped_subjects_of (subjects_lower : List String) : List String :=
  subjects_lower.flatMap (fun s =>
    if normalize_subject_name s ≠ s then [s, normalize_subject_name s] else [s])

/-- The interest matches of one major: distinct lower-cased interests that
appear among the major's lower-cased keywords. -/
def interest_matches_of (interests_lower : List String) (m : Major) : List String :=
  interests_lower.dedup.filter (fun i => decide (i ∈ m.keywords.map py_lower))

/-- The subject matches of one major: distinct mapped favourite subjects that
appear among the lower-cased requirement keys. -/
def subject_matches_of (subjects_lower : List String) (m : Major) : List String :=
  (mapped_subjects_of subjects_lower).dedup.filter
    (fun s => decide (s ∈ m.requirements.map (fun p => py_lower p.1)))

/-- The career-goal test of one major: some career path and the goal are
case-insensitive substrings of one another. -/
def career_hit_of (career_goals : Option String) (m : Major) : Bool :=
  let career_lower := if opt_str_truthy career_goals then py_lower (career_goals.getD "") else ""
  opt_str_truthy career_goals &&
    (m.career_paths.map py_lower).any (fun cp =>
      is_sub career_lower cp || is_sub cp career_lower)

/-- The count of interests literally appearing in the major's description. -/
def desc_matches_of (interests_lower : List String) (m : Major) : ℕ :=
  (interests_lower.filter (fun i => is_sub i (py_lower m.description))).length

/-- The accumulated score of one major in `match_interests_to_majors`. -/
def major_match_score (interests_lower subjects_lower : List String)
    (career_goals : Option String) (m : Major) : ℚ :=
  (if (interest_matches_of interests_lower m).isEmpty then 0
   else (0.4 : ℚ) * (((interest_matches_of interests_lower m).length : ℚ) /
     (max interests_lower.length 1 : ℚ)))
  + (if subjects_lower.isEmpty || (subject_matches_of subjects_lower m).isEmpty then 0
     else (0.3 : ℚ) * (((subject_matches_of subjects_lower m).length : ℚ) /
       (m.requirements.length : ℚ)))
  + (if career_hit_of career_goals m then (0.3 : ℚ) else 0)
  + (if 0 < desc_matches_of interests_lower m ∧ 0 < interests_lower.length then
       (0.1 : ℚ) * min ((desc_matches_of interests_lower m : ℚ) /
         (interests_lower.length : ℚ)) 1
     else 0)

/-- The accumulated reason strings of one major, with the fallback reason of
the source when no term contributed one. -/
def major_match_reasons (interests_lower subjects_lower : List String)
    (career_goals : Option String) (m : Major) : List String :=
  let r1 : List String := if (interest_matches_of interests_lower m).isEmpty then []
    else ["Matches your interests: " ++
      String.intercalate ", " (interest_matches_of interests_lower m)]
  let r2 : List String :=
    if subjects_lower.isEmpty || (subject_matches_of subjects_lower m).isEmpty then []
    else ["Aligns with your strong subjects: " ++
      String.intercalate ", " (subject_matches_of subjects_lower m)]
  let r3 : List String := if career_hit_of career_goals m then ["Matches your career goals"] else []
  let reasons := r1 ++ r2 ++ r3
  if reasons.isEmpty then ["General interest alignment"] else reasons

/-- The accumulated matching-keyword set of one major. -/
def major_match_keywords (interests_lower subjects_lower : List String)
    (m : Major) : List String :=
  (interest_matches_of interests_lower m ++
    (if subjects_lower.isEmpty then [] else subject_matches_of subjects_lower m)).dedup

/-- The per-major body of the loop of `match_interests_to_majors`: a
`MajorMatch` for a positive score, `none` otherwise. -/
def build_major_match (interests_lower subjects_lower : List String)
    (career_goals : Option String) (m : Major) : Option MajorMatch :=
  if 0 < major_match_score interests_lower subjects_lower career_goals m then
    some { major := m,
           score := major_match_score interests_lower subjects_lower career_goals m,
           reasons := major_match_reasons interests_lower subjects_lower career_goals m,
           matching_keywords := major_match_keywords interests_lower subjects_lower m }
  else none

/-- Embedding of `MajorService.match_interests_to_majors`. The `None` defaults
of `interests` and `favorite_subjects` are modelled by the empty list, which
Python treats identically (both are falsy and `x or []` erases the
difference). -/
def match_interests_to_majors (majors : List Major) (interests : List String)
    (favorite_subjects : List String) (career_goals : Option String)
    (top_n : PyVal) : Except String (List MajorMatch) :=
  match (if py_truthy top_n then py_int top_n else .ok 5) with
  | .error e => .error e
  | .ok n =>
    let interests_lower := interests.map py_lower
    let subjects_lower := favorite_subjects.map py_lower
    let match_list := majors.filterMap
      (build_major_match interests_lower subjects_lower career_goals)
    .ok (py_slice n (py_sort_desc (fun mm => mm.score) match_list))

/-- One iteration of the similarity loop of `get_similar_majors`: skip the
reference itself, then pair the major with the Jaccard similarity of the
lower-cased keyword sets when the overlap is positive. -/
def similarity_entry (reference m : Major) : Option (Major × ℚ) :=
  if m.id = reference.id then none
  else
    let ref_keywords := (reference.keywords.map py_lower).dedup
    let major_keywords := (m.keywords.map py_lower).dedup
    let overlap := (ref_keywords.filter (fun k => decide (k ∈ major_keywords))).length
    let union_size := (ref_keywords ++
      major_keywords.filter (fun k => decide (¬k ∈ ref_keywords))).length
    if 0 < overlap then some (m, (overlap : ℚ) / (union_size : ℚ)) else none

/-- Embedding of `MajorService.get_similar_majors`: Jaccard similarity of
lower-cased keyword sets against the resolved reference major, excluding the
reference itself, positive overlap only, descending. -/
def get_similar_majors (majors : List Major) (major_name : String)
    (top_n : ℕ) : List Major :=
  match get_major_by_name majors major_name true with
  | none => []
  | some reference =>
    ((py_sort_desc (fun p => p.2)
      (majors.filterMap (similarity_entry reference))).take top_n).map (·.1)

/-- A Python prefix slice is a sublist of the original list. -/
theorem py_slice_sublist {α : Type} (n : ℤ) (l : List α) :
    (py_slice n l).Sublist l := by
  unfold py_slice
  split_ifs <;> exact List.take_sublist _ _

/-- All four scoring terms are nonnegative. -/
theorem major_match_score_nonneg (interests_lower subjects_lower : List String)
    (career_goals : Option String) (m : Major) :
    0 ≤ major_match_score interests_lower subjects_lower career_goals m := by
  unfold major_match_score
  refine add_nonneg (add_nonneg (add_nonneg ?_ ?_) ?_) ?_
  · split_ifs with h
    · exact le_refl 0
    · exact mul_nonneg (by norm_num) (div_nonneg (Nat.cast_nonneg _)
        (le_trans zero_le_one (le_max_right _ _)))
  · split_ifs with h
    · exact le_refl 0
    · exact mul_nonneg (by norm_num) (div_nonneg (Nat.cast_nonneg _) (Nat.cast_nonneg _))
  · split_ifs with h
    · norm_num
    · exact le_refl 0
  · split_ifs with h
    · exact mul_nonneg (by norm_num) (le_min (div_nonneg (Nat.cast_nonneg _)
        (Nat.cast_nonneg _)) zero_le_one)
    · exact le_refl 0

/-- A major is dropped by the matching loop exactly when its accumulated score
is zero. -/
theorem build_major_match_eq_none_iff (interests_lower subjects_lower : List String)
    (career_goals : Option String) (m : Major) :
    build_major_match interests_lower subjects_lower career_goals m = none ↔
      major_match_score interests_lower subjects_lower career_goals m = 0 := by
  unfold build_major_match
  split_ifs with h
  · refine iff_of_false (by simp) (fun h0 => ?_)
    rw [h0] at h
    exact lt_irrefl 0 h
  · exact iff_of_true rfl (le_antisymm (not_lt.mp h)
      (major_match_score_nonneg interests_lower subjects_lower career_goals m))

/-- A returned match carries the accumulated score, which is positive. -/
theorem build_major_match_some_score (interests_lower subjects_lower : List String)
    (career_goals : Option String) (m : Major) (mm : MajorMatch)
    (h : build_major_match interests_lower subjects_lower career_goals m = some mm) :
    mm.score = major_match_score interests_lower subjects_lower career_goals m
      ∧ 0 < mm.score ∧ mm.major = m := by
  unfold build_major_match at h
  by_cases hpos : 0 < major_match_score interests_lower subjects_lower career_goals m
  · rw [if_pos hpos] at h
    have h' := Option.some.inj h
    subst h'
    exact ⟨rfl, hpos, rfl⟩
  · rw [if_neg hpos] at h
    exact Option.noConfusion h

/-- The accumulated score equals the sum of the four spec-side terms. -/
theorem major_match_score_formula (interests_lower subjects_lower : List String)
    (career_goals : Option String) (m : Major) :
    major_match_score interests_lower subjects_lower career_goals m =
      (if interest_matches_of interests_lower m ≠ [] then
         (0.4 : ℚ) * (((interest_matches_of interests_lower m).length : ℚ) /
           (max interests_lower.length 1 : ℚ))
       else 0)
      + (if subjects_lower ≠ [] ∧ subject_matches_of subjects_lower m ≠ [] then
           (0.3 : ℚ) * (((subject_matches_of subjects_lower m).length : ℚ) /
             (m.requirements.length : ℚ))
         else 0)
      + (if opt_str_truthy career_goals = true ∧
           ∃ cp ∈ m.career_paths.map py_lower,
             is_sub (py_lower (career_goals.getD "")) cp = true ∨
             is_sub cp (py_lower (career_goals.getD "")) = true then
           (0.3 : ℚ)
         else 0)
      + (if interests_lower ≠ [] then
           (0.1 : ℚ) * min ((desc_matches_of interests_lower m : ℚ) /
             (interests_lower.length : ℚ)) 1
         else 0) := by
  unfold major_match_score
  congr 1
  · congr 1
    · congr 1
      · by_cases h : interest_matches_of interests_lower m = []
        · rw [if_pos (by rw [h]; rfl), if_neg (by simp [h])]
        · rw [if_neg (by simpa using h), if_pos h]
      · by_cases hs : subjects_lower = []
        · rw [if_pos (by rw [hs]; rfl), if_neg (by simp [hs])]
        · by_cases hm : subject_matches_of subjects_lower m = []
          · rw [if_pos (by simp [hm]), if_neg (by simp [hm])]
          · rw [if_neg (by simp [hs, hm]), if_pos ⟨hs, hm⟩]
    · by_cases hc : career_hit_of career_goals m = true
      · rw [if_pos hc, if_pos ?_]
        unfold career_hit_of at hc
        rw [Bool.and_eq_true, List.any_eq_true] at hc
        obtain ⟨ht, cp, hcp, hor⟩ := hc
        rw [if_pos ht, Bool.or_eq_true] at hor
        exact ⟨ht, cp, hcp, hor⟩
      · rw [if_neg hc, if_neg ?_]
        rintro ⟨ht, cp, hcp, hor⟩
        apply hc
        unfold career_hit_of
        rw [Bool.and_eq_true, List.any_eq_true]
        refine ⟨ht, cp, hcp, ?_⟩
        rw [if_pos ht, Bool.or_eq_true]
        exact hor
  · by_cases hi : interests_lower = []
    · rw [if_neg (by simp [hi]), if_neg (by simp [hi])]
    · rw [if_pos hi]
      by_cases hd : 0 < desc_matches_of interests_lower m
      · rw [if_pos ⟨hd, List.length_pos.mpr hi⟩]
      · rw [if_neg (fun hc => hd hc.1)]
        have h0 : desc_matches_of interests_lower m = 0 := Nat.eq_zero_of_not_pos hd
        rw [h0]
        norm_num

/-- Claim C6 (amended): each major's score is the sum of the four terms
(interest 0.4-term, subject 0.3-term, flat 0.3 career term, 0.1 description
bonus); majors with score 0 are excluded; the result is the stable descending
sort of the positive-score matches in dataset order, truncated by the Python
slice with the coerced topN; topN defaults to 5 when falsy, while an
unparseable topN makes the call fail (it is not replaced by the default, and a
negative topN slices from the end); with empty interests, empty favourite
subjects and no career goals the result is empty. -/
theorem spec_C6_amended :
    (∀ (majors : List Major) (interests favorite_subjects : List String)
      (career_goals : Option String) (top_n : PyVal) (n : ℤ) (res : List MajorMatch),
      (if py_truthy top_n then py_int top_n else Except.ok 5) = Except.ok n →
      match_interests_to_majors majors interests favorite_subjects career_goals top_n =
        .ok res →
      res = py_slice n (py_sort_desc (fun mm => mm.score)
          (majors.filterMap (build_major_match (interests.map py_lower)
            (favorite_subjects.map py_lower) career_goals)))
      ∧ res.Pairwise (fun a b => b.score ≤ a.score)
      ∧ (∀ q : ℚ,
          (py_sort_desc (fun mm => mm.score)
            (majors.filterMap (build_major_match (interests.map py_lower)
              (favorite_subjects.map py_lower) career_goals))).filter
            (fun mm => decide (mm.score = q)) =
          (majors.filterMap (build_major_match (interests.map py_lower)
            (favorite_subjects.map py_lower) career_goals)).filter
            (fun mm => decide (mm.score = q)))
      ∧ ∀ mm ∈ res, 0 < mm.score ∧ mm.score ≠ 0)
    ∧ (∀ (interests_lower subjects_lower : List String)
        (career_goals : Option String) (m : Major) (mm : MajorMatch),
        build_major_match interests_lower subjects_lower career_goals m = some mm →
        mm.score =
          (if interest_matches_of interests_lower m ≠ [] then
             (0.4 : ℚ) * (((interest_matches_of interests_lower m).length : ℚ) /
               (max interests_lower.length 1 : ℚ))
           else 0)
          + (if subjects_lower ≠ [] ∧ subject_matches_of subjects_lower m ≠ [] then
               (0.3 : ℚ) * (((subject_matches_of subjects_lower m).length : ℚ) /
                 (m.requirements.length : ℚ))
             else 0)
          + (if opt_str_truthy career_goals = true ∧
               ∃ cp ∈ m.career_paths.map py_lower,
                 is_sub (py_lower (career_goals.getD "")) cp = true ∨
                 is_sub cp (py_lower (career_goals.getD "")) = true then
               (0.3 : ℚ)
             else 0)
          + (if interests_lower ≠ [] then
               (0.1 : ℚ) * min ((desc_matches_of interests_lower m : ℚ) /
                 (interests_lower.length : ℚ)) 1
             else 0))
    ∧ (∀ (interests_lower subjects_lower : List String)
        (career_goals : Option String) (m : Major),
        build_major_match interests_lower subjects_lower career_goals m = none ↔
        major_match_score interests_lower subjects_lower career_goals m = 0)
    ∧ (∀ top_n : PyVal, py_truthy top_n = false →
        (if py_truthy top_n then py_int top_n else Except.ok 5) = Except.ok 5)
    ∧ (∀ (majors : List Major) (top_n : PyVal) (res : List MajorMatch),
        match_interests_to_majors majors [] [] none top_n = .ok res → res = [])
    ∧ (∀ (majors : List Major) (interests favorite_subjects : List String)
        (career_goals : Option String) (top_n : PyVal) (e : String),
        py_truthy top_n = true → py_int top_n = .error e →
        match_interests_to_majors majors interests favorite_subjects career_goals top_n =
          .error e) := by
  refine ⟨?_, ?_, build_major_match_eq_none_iff, ?_, ?_, ?_⟩
  · intro majors interests favorite_subjects career_goals top_n n res hn hres
    unfold match_interests_to_majors at hres
    rw [hn] at hres
    have hres' := Except.ok.inj hres
    subst hres'
    refine ⟨rfl, ?_, fun q => py_sort_desc_filter_key _ _ q, ?_⟩
    · exact (py_sort_desc_sorted _ _).sublist (py_slice_sublist _ _)
    · intro mm hmm
      have h1 : mm ∈ py_sort_desc (fun mm => mm.score)
          (majors.filterMap (build_major_match (interests.map py_lower)
            (favorite_subjects.map py_lower) career_goals)) :=
        (py_slice_sublist _ _).subset hmm
      have h2 := (py_sort_desc_perm _ _).mem_iff.mp h1
      obtain ⟨m, -, hb⟩ := List.mem_filterMap.mp h2
      have h3 := build_major_match_some_score _ _ _ _ _ hb
      exact ⟨h3.2.1, ne_of_gt h3.2.1⟩
  · intro interests_lower subjects_lower career_goals m mm h
    rw [(build_major_match_some_score _ _ _ _ _ h).1]
    exact major_match_score_formula _ _ _ _
  · intro top_n ht
    rw [ht]
    rfl
  · intro majors top_n res hres
    unfold match_interests_to_majors at hres
    cases hn : (if py_truthy top_n then py_int top_n else Except.ok (5 : ℤ)) with
    | error e => rw [hn] at hres; exact Except.noConfusion hres
    | ok n =>
      rw [hn] at hres
      have hb : ∀ m ∈ majors,
          build_major_match (([] : List String).map py_lower)
            (([] : List String).map py_lower) none m = none := by
        intro m hm
        rw [build_major_match_eq_none_iff]
        unfold major_match_score
        have h1 : interest_matches_of (([] : List String).map py_lower) m = [] := rfl
        have h2 : career_hit_of none m = false := rfl
        rw [h1, h2]
        norm_num [desc_matches_of]
      have hres' := Except.ok.inj hres
      rw [List.filterMap_eq_nil_iff.mpr hb] at hres'
      rw [← hres']
      have hsortnil : py_sort_desc (fun mm : MajorMatch => mm.score) [] = [] := rfl
      rw [hsortnil]
      unfold py_slice
      split_ifs <;> exact List.take_nil
  · intro majors interests favorite_subjects career_goals top_n e ht he
    unfold match_interests_to_majors
    rw [ht, if_pos rfl, he]

/-- The single match returned for interests ["programming"] over the demo
dataset: 0.4 interest term plus 0.1 description bonus. -/
def c6_match : MajorMatch :=
  { major := demo_major, score := 1/2,
    reasons := ["Matches your interests: programming"],
    matching_keywords := ["programming"] }

/-- Counterexample for claim C6 as stated: an unparseable `top_n` does not
fall back to the default of 5 — the call fails — although the same call with a
falsy `top_n` succeeds with a non-empty result. -/
theorem spec_C6_counterexample :
    (match_interests_to_majors [demo_major] ["programming"] [] none
      (PyVal.vstr "abc")).isOk = false
    ∧ match_interests_to_majors [demo_major] ["programming"] [] none PyVal.vnone =
        .ok [c6_match] :=
  ⟨by with_unfolding_all decide, by with_unfolding_all decide⟩

/-- Witness for the amended claim C6 at a concrete call. -/
theorem spec_C6_amended_witness :
    ([c6_match] : List MajorMatch).Pairwise (fun a b => b.score ≤ a.score)
    ∧ (∀ mm ∈ ([c6_match] : List MajorMatch), 0 < mm.score ∧ mm.score ≠ 0) := by
  have h := spec_C6_amended.1 [demo_major] ["programming"] [] none PyVal.vnone 5 [c6_match]
    (by with_unfolding_all decide) (by with_unfolding_all decide)
  exact ⟨h.2.1, h.2.2.2⟩

/-- A major with no keyword overlap with `demo_major`. -/
def art_major : Major :=
  { id := "fine_arts", name := "Fine Arts",
    requirements := [("Portuguese", 12)], keywords := ["painting", "drawing"] }

/-- Claim C10: when the reference major name does not resolve,
`get_similar_majors` returns the empty list instead of raising, while
`compare_grades_to_requirements` fails for the same name; and a resolved major
with no keyword overlap also yields the empty list, so the two situations are
indistinguishable to the caller. -/
theorem spec_C10 :
    (∀ (majors : List Major) (name : String) (top_n : ℕ),
      get_major_by_name majors name true = none →
      get_similar_majors majors name top_n = [])
    ∧ (∀ (majors : List Major) (student_grades : List (String × ℚ)) (name : String),
      get_major_by_name majors name true = none →
      ∃ e, compare_grades_to_requirements majors student_grades name = .error e)
    ∧ (∀ (majors : List Major) (name : String) (top_n : ℕ) (reference : Major),
      get_major_by_name majors name true = some reference →
      (∀ m ∈ majors, m.id ≠ reference.id →
        ∀ k ∈ (reference.keywords.map py_lower).dedup,
          ¬k ∈ (m.keywords.map py_lower).dedup) →
      get_similar_majors majors name top_n = []) := by
  refine ⟨?_, ?_, ?_⟩
  · intro majors name top_n h
    unfold get_similar_majors
    rw [h]
  · intro majors student_grades name h
    unfold compare_grades_to_requirements
    rw [h]
    exact ⟨_, rfl⟩
  · intro majors name top_n reference h hdisj
    unfold get_similar_majors
    rw [h]
    dsimp only
    have hnil : majors.filterMap (similarity_entry reference) = [] := by
      rw [List.filterMap_eq_nil_iff]
      intro m hm
      unfold similarity_entry
      by_cases hid : m.id = reference.id
      · rw [if_pos hid]
      · rw [if_neg hid]
        have hov : ((reference.keywords.map py_lower).dedup).filter
            (fun k => decide (k ∈ (m.keywords.map py_lower).dedup)) = [] := by
          rw [List.filter_eq_nil_iff]
          intro k hk
          simpa using hdisj m hm hid k hk
        simp only [hov]
        rw [if_neg (by simp)]
    rw [hnil]
    have hsortnil : py_sort_desc (fun p : Major × ℚ => p.2) [] = [] := rfl
    rw [hsortnil, List.take_nil]
    rfl

/-- Witness for claim C10: an unknown name gives the empty list while the
grade comparison fails, and a known major with disjoint keywords also gives
the empty list. -/
theorem spec_C10_witness :
    get_similar_majors [demo_major] "History" 3 = []
    ∧ (∃ e, compare_grades_to_requirements [demo_major] [] "History" = .error e)
    ∧ get_similar_majors [demo_major, art_major] "Computer Science" 3 = [] := by
  refine ⟨?_, ?_, ?_⟩
  · exact spec_C10.1 [demo_major] "History" 3 (by decide)
  · exact spec_C10.2.1 [demo_major] [] "History" (by decide)
  · exact spec_C10.2.2 [demo_major, art_major] "Computer Science" 3 demo_major
      (by decide) (by decide)

/- ============================================================================
src/config/settings.py (crisis detection constants) and src/core/router.py
============================================================================ -/

/-- Embedding of `CRISIS_KEYWORDS`: the fixed list of self-harm phrases. -/
def CRISIS_KEYWORDS : List String :=
  ["hurt myself", "kill myself", "suicide", "end my life",
   "want to die", "self harm", "self-harm", "cutting myself",
   "don" ++ apos ++ "t want to live", "no reason to live", "better off dead",
   "end it all", "not worth living", "take my own life"]

/-- Embedding of `CRISIS_RESPONSE`: the fixed compassionate message with
helpline resources. -/
def CRISIS_RESPONSE : String :=
  "\nI" ++ apos ++ "m really concerned about what you" ++ apos ++
  "ve shared. Your wellbeing matters more than any academic decision.\n\n" ++
  "**Please reach out to someone who can help:**\n\n" ++
  "🇵🇹 **Portugal:**\n- SOS Voz Amiga: 213 544 545 (daily 15h-22h)\n" ++
  "- Telefone da Amizade: 222 080 707\n\n🌍 **International:**\n" ++
  "- International Association for Suicide Prevention: " ++
  "https://www.iasp.info/resources/Crisis_Centres/\n\nYou" ++ apos ++
  "re not alone. Please talk to a trusted adult, counselor, or call one of " ++
  "these helplines. They" ++ apos ++ "re there for you. 💙\n"

/-- Embedding of the `IntentType` enumeration. -/
inductive IntentType where
  | crisis_safety
  | major_discovery
  | transcript_analysis
  | gap_analysis
  | resource_request
  | general_question
  | greeting_or_chitchat
  | unknown
deriving DecidableEq

/-- The `.value` string of each intent. -/
def IntentType.value : IntentType → String
  | .crisis_safety => "crisis_safety"
  | .major_discovery => "major_discovery"
  | .transcript_analysis => "transcript_analysis"
  | .gap_analysis => "gap_analysis"
  | .resource_request => "resource_request"
  | .general_question => "general_question"
  | .greeting_or_chitchat => "greeting_or_chitchat"
  | .unknown => "unknown"

/-- The `IntentType(...)` constructor on strings; `none` models the
`ValueError` that the caller converts to `UNKNOWN`. -/
def intent_type_from_string (s : String) : Option IntentType :=
  if s = "crisis_safety" then some .crisis_safety
  else if s = "major_discovery" then some .major_discovery
  else if s = "transcript_analysis" then some .transcript_analysis
  else if s = "gap_analysis" then some .gap_analysis
  else if s = "resource_request" then some .resource_request
  else if s = "general_question" then some .general_question
  else if s = "greeting_or_chitchat" then some .greeting_or_chitchat
  else if s = "unknown" then some .unknown
  else none

/-- The extracted-entity context stored in an `IntentResult`; absent dict keys
are the falsy defaults. -/
structure IntentContext where
  major : Option String := none
  subjects : List String := []
  interests : List String := []
  has_transcript : Bool := false
deriving DecidableEq

/-- Embedding of the `IntentResult` dataclass. -/
structure IntentResult where
  intent : IntentType
  confidence : ℚ := 1
  reasoning : Option String := none
  context : IntentContext := {}
  requires_transcript : Bool := false
  requires_major : Bool := false
deriving DecidableEq

/-- The `extracted_entities` object of a structured classification reply. -/
structure IntentEntities where
  major_mentioned : Option String := none
  subjects_mentioned : List String := []
  interests : List String := []
  has_transcript_reference : Bool := false
deriving DecidableEq

/-- A structured classification reply from the LLM collaborator. -/
structure IntentJson where
  intent : Option String := none
  confidence : Option ℚ := none
  reasoning : Option String := none
  extracted_entities : Option IntentEntities := none
deriving DecidableEq

/-- One prior conversation turn. -/
structure HistMsg where
  role : String
  content : String
deriving DecidableEq

/-- One uploaded file reference (name and path). -/
structure FileRef where
  name : String
  path : String
deriving DecidableEq

/-- Embedding of `_detect_crisis_keywords`. -/
def detect_crisis_keywords (message : String) : Bool :=
  CRISIS_KEYWORDS.any (fun kw => is_sub kw (py_lower message))

/-- Embedding of `_fallback_classification`, the keyword classifier used when
the LLM call fails. -/
def fallback_classification (user_message : String)
    (uploaded_files : List FileRef) : IntentResult :=
  let message_lower := py_lower user_message
  let has_transcript := !uploaded_files.isEmpty ||
    (["transcript", "grades", "report card", "my scores"].any
      (fun kw => is_sub kw message_lower))
  let intent :=
    if ["hello", "hi", "hey", "thanks", "thank you"].any
        (fun kw => is_sub kw message_lower) then
      IntentType.greeting_or_chitchat
    else if ["what major", "which major", "suggest major", "recommend major",
        "i like", "i love", "interested in"].any
        (fun kw => is_sub kw message_lower) then
      IntentType.major_discovery
    else if (["am i ready", "do i qualify", "meet requirements", "good enough"].any
        (fun kw => is_sub kw message_lower)) && has_transcript then
      IntentType.gap_analysis
    else if has_transcript then IntentType.transcript_analysis
    else if ["study", "learn", "improve", "course", "resource", "how can i"].any
        (fun kw => is_sub kw message_lower) then
      IntentType.resource_request
    else IntentType.general_question
  { intent := intent, confidence := 0.6,
    reasoning := some "Classified using keyword fallback due to LLM error",
    context := { has_transcript := !uploaded_files.isEmpty },
    requires_transcript := has_transcript }

/-- Embedding of `classify_intent`. The structured-output LLM call is the
oracle argument; an oracle error models any exception of the try block, which
the source recovers from with the keyword fallback. -/
def classify_intent
    (oracle : String → List HistMsg → List FileRef → Except String IntentJson)
    (user_message : String) (conversation_history : List HistMsg)
    (uploaded_files : List FileRef) : IntentResult :=
  if detect_crisis_keywords user_message then
    { intent := .crisis_safety, confidence := 1,
      reasoning := some "Crisis/safety keywords detected in user message" }
  else
    match oracle user_message conversation_history uploaded_files with
    | .error _ => fallback_classification user_message uploaded_files
    | .ok result =>
      let intent := (intent_type_from_string (result.intent.getD "unknown")).getD .unknown
      let entities := result.extracted_entities.getD {}
      { intent := intent,
        confidence := result.confidence.getD 0.9,
        reasoning := some (result.reasoning.getD ""),
        context := { major := entities.major_mentioned,
                     subjects := entities.subjects_mentioned,
                     interests := entities.interests,
                     has_transcript := !uploaded_files.isEmpty },
        requires_transcript :=
          (decide (intent = .transcript_analysis) ||
            decide (intent = .gap_analysis)) || entities.has_transcript_reference,
        requires_major :=
          decide (intent = .gap_analysis) && entities.major_mentioned.isSome }

/-- The rephrase question returned on low confidence. -/
def rephrase_question : String :=
  "I" ++ apos ++ "m not quite sure what you" ++ apos ++
  "re looking for. Could you rephrase that?"

/-- The which-major question returned for gap analysis without a major. -/
def which_major_question : String :=
  "Which major would you like me to check your readiness for?"

/-- The transcript-upload prompt returned when a transcript is required but
absent. -/
def upload_transcript_question : String :=
  "I" ++ apos ++ "ll need to see your transcript to help with that. " ++
  "Could you upload your grades PDF?"

/-- Embedding of `requires_clarification`. -/
def requires_clarification (intent_result : IntentResult) : Option String :=
  if intent_result.confidence < 0.5 then some rephrase_question
  else if intent_result.intent = IntentType.gap_analysis ∧
      opt_str_truthy intent_result.context.major = false then
    some which_major_question
  else if intent_result.requires_transcript = true ∧
      intent_result.context.has_transcript = false then
    some upload_transcript_question
  else none

/- ============================================================================
src/core/orchestrator.py
============================================================================ -/

/-- Embedding of the `AgentStatus` enumeration. -/
inductive AgentStatus where
  | idle
  | thinking
  | calling_tool
  | synthesizing
  | completed
  | error
deriving DecidableEq

/-- The `.value` string of each status. -/
def AgentStatus.value : AgentStatus → String
  | .idle => "idle"
  | .thinking => "thinking"
  | .calling_tool => "calling_tool"
  | .synthesizing => "synthesizing"
  | .completed => "completed"
  | .error => "error"

/-- Embedding of the `ToolResult` dataclass. `α` is the (opaque) argument
mapping type of a tool and `β` its result payload type; the wall-clock
duration recorded by the source is the explicit `execution_time` value. -/
structure ToolResult (α β : Type) where
  tool_name : String
  success : Bool
  result : Option β := none
  error : Option String := none
  execution_time : ℚ := 0
  metadata : Option α := none
deriving DecidableEq

/-- One entry of the `tool_calls` log (the source also stores a wall-clock
timestamp, which is not modelled). -/
structure ToolCallLog where
  tool : String
  success : Bool
deriving DecidableEq

/-- Embedding of the `AgentState` dataclass (without the wall-clock
`start_time` and the never-written `intermediate_thoughts`). -/
structure AgentState (α β : Type) where
  user_message : String
  conversation_history : List HistMsg := []
  uploaded_files : List FileRef := []
  intent : Option IntentResult := none
  status : AgentStatus := .idle
  tool_calls : List ToolCallLog := []
  tool_results : List (ToolResult α β) := []
  plan : Option String := none
  final_response : Option String := none
  error_message : Option String := none
  session_id : Option String := none
  user_id : Option String := none
  total_execution_time : ℚ := 0
deriving DecidableEq

/-- Embedding of `AgentState.add_tool_result`. -/
def add_tool_result {α β : Type} (st : AgentState α β) (r : ToolResult α β) :
    AgentState α β :=
  { st with tool_results := st.tool_results ++ [r],
            tool_calls := st.tool_calls ++ [{ tool := r.tool_name, success := r.success }] }

/-- Embedding of the `AgentOrchestrator` construction data. -/
structure AgentOrchestrator (α β : Type) where
  tool_registry : List (String × (α → Except String β))
  max_iterations : ℕ := 5
  max_tool_calls : ℕ := 10

/-- The LLM collaborators of one orchestration run, as oracles: structured
intent classification, the greeting reply, the tool-selection decision (`none`
or an empty list model a reply without tool calls), and response synthesis.
An `Except.error` models a raised exception at that call site. -/
structure LlmOracles (α β : Type) where
  structured : String → List HistMsg → List FileRef → Except String IntentJson
  chat_greeting : String → Except String String
  decide_tools : AgentState α β → Except String (Option (List (String × α)))
  synthesize : AgentState α β → Except String String

/-- Embedding of `AgentOrchestrator._execute_tool`. The recorded wall-clock
duration is the explicit `dur` argument. -/
def execute_tool {α β : Type} (tool_registry : List (String × (α → Except String β)))
    (tool_name : String) (tool_args : α) (dur : ℚ) : ToolResult α β :=
  match assoc_lookup tool_registry tool_name with
  | none =>
    { tool_name := tool_name, success := false,
      error := some ("Tool " ++ apos ++ tool_name ++ apos ++ " not found in registry"),
      execution_time := dur }
  | some tool_func =>
    match tool_func tool_args with
    | .ok result =>
      { tool_name := tool_name, success := true, result := some result,
        execution_time := dur, metadata := some tool_args }
    | .error e =>
      { tool_name := tool_name, success := false, error := some e,
        execution_time := dur, metadata := some tool_args }

/-- Embedding of `AgentOrchestrator._create_plan`. -/
def create_plan (intent : IntentType) : String :=
  match intent with
  | .major_discovery =>
    "1. Extract user" ++ apos ++ "s interests and favorite subjects\n" ++
    "2. Call get_major_suggestions tool\n" ++
    "3. Present top 3-5 matching majors with explanations"
  | .transcript_analysis =>
    "1. Call parse_transcript tool to extract grades\n" ++
    "2. Identify strongest and weakest subjects\n" ++
    "3. Provide overview of academic profile"
  | .gap_analysis =>
    "1. Parse transcript if not already done\n" ++
    "2. Get major requirements using get_major_info\n" ++
    "3. Call analyze_grade_gaps to compare\n" ++
    "4. If gaps exist, call find_study_resources for weak subjects"
  | .resource_request =>
    "1. Identify subject and specific topic from user message\n" ++
    "2. Call find_study_resources tool\n" ++
    "3. Present curated list with study plan"
  | .general_question =>
    "1. Use general knowledge to answer\n" ++
    "2. Call get_major_info if specific major mentioned\n" ++
    "3. Provide comprehensive, cited answer"
  | _ => "Analyze message and respond appropriately"

/-- The generic apology set as the final response on an orchestration
error. -/
def run_error_message : String :=
  "I encountered an error while processing your request. " ++
  "Could you try rephrasing or let me know if you need help?"

/-- The ERROR-state transition of the `except` clause of
`AgentOrchestrator.run`, applied to the state at the failure point. -/
def error_state {α β : Type} (st : AgentState α β) (e : String) (elapsed : ℚ) :
    AgentState α β :=
  { st with status := .error, error_message := some e,
            final_response := some run_error_message,
            total_execution_time := elapsed }

/-- The tool loop of `AgentOrchestrator.run` (step 3): up to `max_iterations`
rounds, stopping early at the `max_tool_calls` cap or on a decision without
tool calls, executing requested calls in order and recording every result. An
error carries the state at the failure point. -/
def agent_loop {α β : Type} (self : AgentOrchestrator α β) (llm : LlmOracles α β)
    (dur : ℚ) : ℕ → AgentState α β →
    Except (AgentState α β × String) (AgentState α β)
  | 0, st => .ok st
  | fuel + 1, st =>
    if self.max_tool_calls ≤ st.tool_calls.length then .ok st
    else
      let st2 := { st with status := AgentStatus.calling_tool }
      match llm.decide_tools st2 with
      | .error e => .error (st2, e)
      | .ok none => .ok st2
      | .ok (some []) => .ok st2
      | .ok (some calls) =>
        agent_loop self llm dur fuel
          (calls.foldl (fun s c => add_tool_result s
            (execute_tool self.tool_registry c.1 c.2 dur)) st2)

/-- The fresh state at the start of a run. -/
def init_state {α β : Type} (user_message : String)
    (conversation_history : List HistMsg) (uploaded_files : List FileRef)
    (session_id user_id : Option String) : AgentState α β :=
  { user_message := user_message, conversation_history := conversation_history,
    uploaded_files := uploaded_files, session_id := session_id,
    user_id := user_id }

/-- Steps of `AgentOrchestrator.run` after intent classification:
clarification short-circuit, greeting short-circuit, planning, the tool loop
and synthesis, with the `except` clause producing the ERROR state. -/
def run_with_intent {α β : Type} (self : AgentOrchestrator α β)
    (llm : LlmOracles α β) (dur elapsed : ℚ) (st0 : AgentState α β)
    (intent : IntentResult) : AgentState α β :=
  let st1 := { st0 with status := AgentStatus.thinking, intent := some intent }
  match requires_clarification intent with
  | some q =>
    { st1 with final_response := some q, status := .completed,
               total_execution_time := elapsed }
  | none =>
    if intent.intent = IntentType.greeting_or_chitchat then
      match llm.chat_greeting st1.user_message with
      | .ok resp =>
        { st1 with final_response := some resp, status := .completed,
                   total_execution_time := elapsed }
      | .error e => error_state st1 e elapsed
    else
      let st2 := { st1 with plan := some (create_plan intent.intent) }
      match agent_loop self llm dur self.max_iterations st2 with
      | .error (st_err, e) => error_state st_err e elapsed
      | .ok st3 =>
        match llm.synthesize { st3 with status := .synthesizing } with
        | .ok final =>
          { st3 with status := .completed, final_response := some final,
                     total_execution_time := elapsed }
        | .error e => error_state { st3 with status := .synthesizing } e elapsed

/-- Embedding of `AgentOrchestrator.run`. -/
def AgentOrchestrator.run {α β : Type} (self : AgentOrchestrator α β)
    (llm : LlmOracles α β) (dur elapsed : ℚ) (user_message : String)
    (conversation_history : List HistMsg) (uploaded_files : List FileRef)
    (session_id user_id : Option String) : AgentState α β :=
  run_with_intent self llm dur elapsed
    (init_state user_message conversation_history uploaded_files session_id user_id)
    (classify_intent llm.structured user_message conversation_history uploaded_files)

/- ============================================================================
src/services/chat_service.py
============================================================================ -/

/-- The metadata dictionary of a `ChatResponse`; keys absent from a branch are
`none`. -/
structure ChatMetadata where
  intent : Option String := none
  tools_used : Option (List String) := none
  execution_time : Option ℚ := none
  session_id : Option String := none
  error : Option String := none
  status : Option String := none
deriving DecidableEq

/-- Embedding of the `ChatResponse` dataclass. -/
structure ChatResponse (α β : Type) where
  message : String
  success : Bool
  metadata : ChatMetadata
  suggestions : Option (List String) := none
  agent_state : Option (AgentState α β) := none
deriving DecidableEq

/-- Embedding of `ChatService._generate_suggestions`. `repr_fn` models the
Python `str()` of a tool-result payload. -/
def generate_suggestions {α β : Type} (repr_fn : Option β → String)
    (agent_state : AgentState α β) : List String :=
  match agent_state.intent with
  | none => []
  | some ir =>
    let intent := ir.intent.value
    let suggestions :=
      if intent = "major_discovery" then
        ["Tell me more about one of these majors",
         "Check if my grades meet the requirements",
         "What careers can I pursue with this major?"]
      else if intent = "transcript_analysis" then
        ["Which major should I consider based on my grades?",
         "How can I improve my weakest subject?",
         "Am I ready for Computer Science?"]
      else if intent = "gap_analysis" then
        if agent_state.tool_results.any (fun tr => tr.success &&
            (is_sub "gap" (py_lower (repr_fn tr.result)) ||
              is_sub "improve" (py_lower (repr_fn tr.result)))) then
          ["Show me resources to improve my weak subjects",
           "What" ++ apos ++ "s a realistic timeline to close these gaps?",
           "Are there alternative majors that fit my current grades?"]
        else
          ["What universities offer this major?",
           "What should I focus on to maintain my readiness?",
           "Tell me about career prospects in this field"]
      else if intent = "resource_request" then
        ["Create a study schedule for me",
         "Are there any free courses available?",
         "What" ++ apos ++ "s the most important topic to focus on first?"]
      else if intent = "general_question" then
        ["Help me find majors that match my interests",
         "Analyze my transcript",
         "What are the most popular majors?"]
      else []
    suggestions.take 3

/-- Embedding of `ChatService._get_error_message`. -/
def get_error_message : String :=
  "I" ++ apos ++ "m having trouble processing your request right now. " ++
  "This could be a temporary issue. Please try:\n" ++
  "- Rephrasing your question\n" ++
  "- Being more specific about what you need\n" ++
  "- Checking if any files uploaded correctly\n\n" ++
  "If the problem persists, feel free to start a new conversation."

/-- Embedding of the `ChatService` construction data. -/
structure ChatService (α β : Type) where
  tool_registry : List (String × (α → Except String β))

/-- The session-id defaulting at the top of `process_message`; `fresh_id`
models the generated UUID. -/
def session_or_fresh (session_id : Option String) (fresh_id : String) : String :=
  match session_id with
  | some s => if s.isEmpty then fresh_id else s
  | none => fresh_id

/-- Embedding of `ChatService.process_message`: session-id defaulting, the
independent crisis pre-check, delegation to the orchestrator, and the
per-status response construction. -/
def ChatService.process_message {α β : Type} (self : ChatService α β)
    (llm : LlmOracles α β) (repr_fn : Option β → String) (dur elapsed : ℚ)
    (fresh_id : String) (user_message : String)
    (conversation_history : List HistMsg) (uploaded_files : List FileRef)
    (session_id user_id : Option String) : ChatResponse α β :=
  if (classify_intent llm.structured user_message [] []).intent =
      IntentType.crisis_safety then
    { message := CRISIS_RESPONSE, success := true,
      metadata := { intent := some "crisis_safety",
                    session_id := some (session_or_fresh session_id fresh_id) } }
  else
    let agent_state := (AgentOrchestrator.mk self.tool_registry 5 10).run llm
      dur elapsed user_message conversation_history uploaded_files
      (some (session_or_fresh session_id fresh_id)) user_id
    if agent_state.status.value = "completed" ∧
        opt_str_truthy agent_state.final_response = true then
      { message := agent_state.final_response.getD "", success := true,
        metadata :=
          { intent := some ((agent_state.intent.map (fun ir => ir.intent.value)).getD
              "unknown"),
            tools_used := some (agent_state.tool_results.map (·.tool_name)),
            execution_time := some agent_state.total_execution_time,
            session_id := some (session_or_fresh session_id fresh_id) },
        suggestions := some (generate_suggestions repr_fn agent_state),
        agent_state := some agent_state }
    else if agent_state.status.value = "error" then
      { message := if opt_str_truthy agent_state.final_response then
            agent_state.final_response.getD ""
          else get_error_message,
        success := false,
        metadata := { error := agent_state.error_message,
                      session_id := some (session_or_fresh session_id fresh_id) },
        agent_state := some agent_state }
    else
      { message := "I had trouble processing that. Could you try rephrasing?",
        success := false,
        metadata := { status := some agent_state.status.value,
                      session_id := some (session_or_fresh session_id fresh_id) },
        agent_state := some agent_state }

/-- Claim C1: any message containing a crisis phrase (case-insensitively,
anywhere) makes `classify_intent` return CRISIS_SAFETY with confidence 1.0
without consulting the LLM oracle and for every history/files value, and makes
`ChatService.process_message` return the fixed crisis-resources message with
success, metadata intent "crisis_safety", and no suggestions. -/
theorem spec_C1 {α β : Type} (llm : LlmOracles α β) (self : ChatService α β)
    (repr_fn : Option β → String) (dur elapsed : ℚ) (fresh_id : String)
    (msg : String) (hist : List HistMsg) (files : List FileRef)
    (session_id user_id : Option String)
    (h : ∃ kw ∈ CRISIS_KEYWORDS, is_sub kw (py_lower msg) = true) :
    classify_intent llm.structured msg hist files =
      { intent := .crisis_safety, confidence := 1,
        reasoning := some "Crisis/safety keywords detected in user message" }
    ∧ self.process_message llm repr_fn dur elapsed fresh_id msg hist files
        session_id user_id =
      { message := CRISIS_RESPONSE, success := true,
        metadata := { intent := some "crisis_safety",
                      session_id := some (session_or_fresh session_id fresh_id) },
        suggestions := none, agent_state := none } := by
  have hdet : detect_crisis_keywords msg = true := by
    rw [detect_crisis_keywords, List.any_eq_true]
    exact h
  have hcls : ∀ (h2 : List HistMsg) (f2 : List FileRef),
      classify_intent llm.structured msg h2 f2 =
      { intent := .crisis_safety, confidence := 1,
        reasoning := some "Crisis/safety keywords detected in user message" } := by
    intro h2 f2
    unfold classify_intent
    rw [if_pos hdet]
  refine ⟨hcls hist files, ?_⟩
  unfold ChatService.process_message
  rw [hcls [] [], if_pos rfl]

/-- Witness for claim C1: a message containing "KILL myself" (upper case,
mid-sentence) at dummy oracles. -/
theorem spec_C1_witness :
    classify_intent
      (fun _ _ _ => (Except.error "down" : Except String IntentJson))
      "some days I want to KILL myself" [] [⟨"t.pdf", "up/t.pdf"⟩] =
      { intent := .crisis_safety, confidence := 1,
        reasoning := some "Crisis/safety keywords detected in user message" }
    ∧ (ChatService.mk ([] : List (String × (Unit → Except String Unit)))).process_message
        { structured := fun _ _ _ => .error "down",
          chat_greeting := fun _ => .error "down",
          decide_tools := fun _ => .error "down",
          synthesize := fun _ => .error "down" }
        (fun _ => "") 0 1 "fresh-uuid"
        "some days I want to KILL myself" [] [⟨"t.pdf", "up/t.pdf"⟩] none none =
      { message := CRISIS_RESPONSE, success := true,
        metadata := { intent := some "crisis_safety",
                      session_id := some (session_or_fresh none "fresh-uuid") },
        suggestions := none, agent_state := none } :=
  spec_C1
    { structured := fun _ _ _ => .error "down",
      chat_greeting := fun _ => .error "down",
      decide_tools := fun _ => .error "down",
      synthesize := fun _ => .error "down" }
    (ChatService.mk ([] : List (String × (Unit → Except String Unit))))
    (fun _ => "") 0 1 "fresh-uuid" "some days I want to KILL myself"
    [] [⟨"t.pdf", "up/t.pdf"⟩] none none
    ⟨"kill myself", by decide, by decide⟩

/-- Claim C8: tool execution never throws — an unregistered name yields a
failed `ToolResult` with a tool-not-found error, a registered tool's exception
becomes a failed result carrying the exception message, a normal return
becomes a successful result, and every branch records the measured execution
time. -/
theorem spec_C8 {α β : Type} (tool_registry : List (String × (α → Except String β)))
    (tool_name : String) (tool_args : α) (dur : ℚ) :
    (execute_tool tool_registry tool_name tool_args dur).execution_time = dur
    ∧ (assoc_lookup tool_registry tool_name = none →
        execute_tool tool_registry tool_name tool_args dur =
          { tool_name := tool_name, success := false,
            error := some ("Tool " ++ apos ++ tool_name ++ apos ++
              " not found in registry"),
            execution_time := dur })
    ∧ (∀ f, assoc_lookup tool_registry tool_name = some f →
        (∀ v, f tool_args = .ok v →
          execute_tool tool_registry tool_name tool_args dur =
            { tool_name := tool_name, success := true, result := some v,
              execution_time := dur, metadata := some tool_args })
        ∧ (∀ e, f tool_args = .error e →
          execute_tool tool_registry tool_name tool_args dur =
            { tool_name := tool_name, success := false, error := some e,
              execution_time := dur, metadata := some tool_args })) := by
  refine ⟨?_, ?_, ?_⟩
  · unfold execute_tool
    cases hl : assoc_lookup tool_registry tool_name with
    | none => rfl
    | some f =>
      dsimp only
      cases hf : f tool_args <;> rfl
  · intro hl
    unfold execute_tool
    rw [hl]
  · intro f hl
    constructor
    · intro v hv
      unfold execute_tool
      rw [hl]
      dsimp only
      rw [hv]
    · intro e he
      unfold execute_tool
      rw [hl]
      dsimp only
      rw [he]

/-- A one-tool registry whose tool always raises. -/
def c8_registry : List (String × (Unit → Except String Unit)) :=
  [("boom", fun _ => Except.error "kaboom")]

/-- Witness for claim C8: a missing tool and a raising tool at concrete
inputs. -/
theorem spec_C8_witness :
    (execute_tool c8_registry "missing" () 2).execution_time = 2
    ∧ execute_tool c8_registry "missing" () 2 =
      { tool_name := "missing", success := false,
        error := some ("Tool " ++ apos ++ "missing" ++ apos ++
          " not found in registry"),
        execution_time := 2 }
    ∧ execute_tool c8_registry "boom" () 3 =
      { tool_name := "boom", success := false, error := some "kaboom",
        execution_time := 3, metadata := some () } :=
  ⟨(spec_C8 c8_registry "missing" () 2).1,
   (spec_C8 c8_registry "missing" () 2).2.1 rfl,
   ((spec_C8 c8_registry "boom" () 3).2.2 (fun _ => Except.error "kaboom") rfl).2
     "kaboom" rfl⟩

/-- The clarification cascade stated with actual file presence, for any intent
result whose context flag reflects the uploaded files (or which requires no
transcript at all). -/
theorem requires_clarification_cascade (files : List FileRef) (r : IntentResult)
    (hr : r.context.has_transcript = !files.isEmpty ∨ r.requires_transcript = false) :
    requires_clarification r =
      (if r.confidence < 0.5 then some rephrase_question
       else if r.intent = IntentType.gap_analysis ∧
           opt_str_truthy r.context.major = false then
         some which_major_question
       else if r.requires_transcript = true ∧ files = [] then
         some upload_transcript_question
       else none) := by
  unfold requires_clarification
  refine if_congr Iff.rfl rfl (if_congr Iff.rfl rfl (if_congr ?_ rfl rfl))
  cases hr with
  | inl h =>
    rw [h]
    refine and_congr_right (fun _ => ?_)
    constructor
    · intro hb
      have : files.isEmpty = true := by
        cases hfe : files.isEmpty with
        | true => rfl
        | false => rw [hfe] at hb; exact Bool.noConfusion hb
      exact List.isEmpty_iff.mp this
    · intro hfe
      rw [hfe]
      rfl
  | inr h =>
    constructor
    · rintro ⟨h1, -⟩
      rw [h] at h1
      exact Bool.noConfusion h1
    · rintro ⟨h1, -⟩
      rw [h] at h1
      exact Bool.noConfusion h1

/-- Claim C9: `requires_clarification` checks its conditions in priority order
(rephrase question on confidence < 0.5, then the which-major question for gap
analysis without a major, then the transcript-upload prompt when a transcript
is required but no files were uploaded this turn, else none), and whenever it
returns a question for the classified intent the orchestrator run completes
with exactly that question as the final response, an empty tool-call log, and
no plan or synthesis step. -/
theorem spec_C9 {α β : Type} (llm : LlmOracles α β) (self : AgentOrchestrator α β)
    (dur elapsed : ℚ) (msg : String) (hist : List HistMsg) (files : List FileRef)
    (session_id user_id : Option String) :
    (requires_clarification (classify_intent llm.structured msg hist files) =
      (if (classify_intent llm.structured msg hist files).confidence < 0.5 then
         some rephrase_question
       else if (classify_intent llm.structured msg hist files).intent =
             IntentType.gap_analysis ∧
           opt_str_truthy (classify_intent llm.structured msg hist files).context.major =
             false then
         some which_major_question
       else if (classify_intent llm.structured msg hist files).requires_transcript =
             true ∧ files = [] then
         some upload_transcript_question
       else none))
    ∧ ∀ q, requires_clarification (classify_intent llm.structured msg hist files) =
        some q →
      self.run llm dur elapsed msg hist files session_id user_id =
        { user_message := msg, conversation_history := hist,
          uploaded_files := files,
          intent := some (classify_intent llm.structured msg hist files),
          status := .completed, tool_calls := [], tool_results := [],
          plan := none, final_response := some q, error_message := none,
          session_id := session_id, user_id := user_id,
          total_execution_time := elapsed } := by
  constructor
  · apply requires_clarification_cascade files
    unfold classify_intent
    by_cases hdet : detect_crisis_keywords msg = true
    · rw [if_pos hdet]
      exact Or.inr rfl
    · rw [if_neg hdet]
      cases llm.structured msg hist files with
      | error e => exact Or.inl rfl
      | ok j => exact Or.inl rfl
  · intro q hq
    unfold AgentOrchestrator.run run_with_intent
    rw [hq]
    rfl

/-- The structured reply used by the C9 witness: gap analysis, confident, no
extracted major. -/
def c9_json : IntentJson :=
  { intent := some "gap_analysis", confidence := some 0.9 }

/-- The oracle set used by the C9 witness. -/
def c9_llm : LlmOracles Unit Unit :=
  { structured := fun _ _ _ => .ok c9_json,
    chat_greeting := fun _ => .ok "hello",
    decide_tools := fun _ => .ok none,
    synthesize := fun _ => .ok "synthesized" }

/-- Witness for claim C9: a confident gap-analysis classification without an
extracted major makes the run return the which-major question with no tools
and no plan. -/
theorem spec_C9_witness :
    (AgentOrchestrator.mk ([] : List (String × (Unit → Except String Unit))) 5 10).run
        c9_llm 0 1 "Am I ready?" [] [] none none =
      { user_message := "Am I ready?", conversation_history := [],
        uploaded_files := [],
        intent := some (classify_intent c9_llm.structured "Am I ready?" [] []),
        status := .completed, tool_calls := [], tool_results := [],
        plan := none, final_response := some which_major_question,
        error_message := none, session_id := none, user_id := none,
        total_execution_time := 1 } :=
  (spec_C9 c9_llm (AgentOrchestrator.mk [] 5 10) 0 1 "Am I ready?" [] [] none none).2
    which_major_question (by with_unfolding_all decide)
